import Mathlib

/-!
Shallow embedding of `src/json_datastore.py` (class `JsonDatastore`), a
minimal document store persisting one JSON object (type name → id → document)
to a single file.

Modelling conventions:
* JSON values are the inductive `JValue`; Python dicts are association lists
  with first-match lookup, in-place update of an existing key, append of a
  new key, which matches Python dict semantics when keys are unique (as they
  always are for a dict).
* The external environment of a `save` call (the `random.randint` draw, the
  `time.time()` epoch, the `time.gmtime()` broken-down time, and the
  `hashlib.sha1` digest function) is passed in as a `SaveEnv` value: one call
  is modelled as happening at one instant, so both `_get_timestamp()` calls
  inside `save` see the same clock value.
* JSON object keys are strings; `strOfId` extracts the string out of a
  document's `_id` value and is the modelling boundary for the (out of
  contract) case of a non-string `_id` supplied by the caller.
* The backing file is `FileState`: `missing` (open raises IOError),
  `unparsable` (json.loads raises ValueError), `parsed v` (json.loads
  returns `v`).
-/

namespace JsonDatastore

/-- JSON values, the document field values of the store. Numbers are modelled
as integers; nothing in the store's logic inspects numeric values. -/
inductive JValue : Type where
  | null : JValue
  | bool : Bool → JValue
  | num : Int → JValue
  | str : String → JValue
  | arr : List JValue → JValue
  | obj : List (String × JValue) → JValue

/-- A document: a Python dict from field name to JSON value. -/
abbrev Doc := List (String × JValue)

/-- A type collection: a Python dict from document id to document. -/
abbrev TypeColl := List (String × Doc)

/-- The whole database: a Python dict from type name to type collection. -/
abbrev Database := List (String × TypeColl)

/-- First-match association-list lookup: Python `d[k]` (`some` iff no
KeyError). -/
def alookup {α : Type} : List (String × α) → String → Option α
  | [], _ => none
  | (k', v) :: xs, k => if k' = k then some v else alookup xs k

/-- Python `d[k] = v`: overwrite the (first) binding of `k` in place if
present, else append a new binding at the end. -/
def aset {α : Type} : List (String × α) → String → α → List (String × α)
  | [], k, v => [(k, v)]
  | (k', v') :: xs, k, v =>
      if k' = k then (k, v) :: xs else (k', v') :: aset xs k v

/-- Python `del d[k]` (the key is assumed present by the caller): remove the
bindings of `k`. -/
def aerase {α : Type} (xs : List (String × α)) (k : String) :
    List (String × α) :=
  xs.filter (fun p => p.1 ≠ k)

/-- Python `d.keys()` (Python 2: a list, in insertion order). -/
def akeys {α : Type} (xs : List (String × α)) : List String :=
  xs.map Prod.fst

/-- The four hex-digit characters of a nibble, lowercase as `hexdigest`
produces. -/
def hexChar (n : Nat) : Char :=
  if n < 10 then Char.ofNat (48 + n) else Char.ofNat (87 + n)

/-- The 40-character lowercase hex rendering of a 160-bit SHA-1 digest, as
`hashlib.sha1(...).hexdigest()` returns it (fixed width, leading zeros). -/
def hexdigest40 (h : Nat) : String :=
  String.mk ((List.range 40).map (fun i => hexChar (h / 16 ^ (39 - i) % 16)))

/-- The environment one `save` call draws from the outside world: the digest
function of `hashlib.sha1` (as a 160-bit number), `random.randint(0,99999)`,
`time.time()` already rendered with 6 decimal places, and `time.gmtime()`. -/
structure SaveEnv : Type where
  sha1 : String → Nat
  rand : Nat
  epoch : String
  tm_year : Nat
  tm_mon : Nat
  tm_mday : Nat
  tm_hour : Nat
  tm_min : Nat
  tm_sec : Nat

/-- Zero-padding to 2 digits, as `strftime` does for `%m %d %H %M %S`. -/
def pad2 (n : Nat) : String :=
  if n < 10 then "0" ++ toString n else toString n

/-- Zero-padding to 4 digits, as `strftime` does for `%Y`. -/
def pad4 (n : Nat) : String :=
  if n < 10 then "000" ++ toString n
  else if n < 100 then "00" ++ toString n
  else if n < 1000 then "0" ++ toString n
  else toString n

/-- `_get_timestamp`: `time.strftime('%Y-%m-%d %H:%M:%S', time.gmtime())`. -/
def get_timestamp (env : SaveEnv) : String :=
  pad4 env.tm_year ++ "-" ++ pad2 env.tm_mon ++ "-" ++ pad2 env.tm_mday ++
    " " ++ pad2 env.tm_hour ++ ":" ++ pad2 env.tm_min ++ ":" ++ pad2 env.tm_sec

/-- `_genrate_id` (name as in the source): sha1 of
`"%s-%.6f" % (rand, epoch)`, rendered as a lowercase hex digest. -/
def genrate_id (env : SaveEnv) : String :=
  hexdigest40 (env.sha1 (toString env.rand ++ "-" ++ env.epoch))

/-- The string behind a document's `_id` value. JSON object keys are strings;
a non-string `_id` supplied by a caller is outside the modelled contract and
maps to `""`. -/
def strOfId : Option JValue → String
  | some (JValue.str s) => s
  | _ => ""

/-- `"\x27" ++ s ++ "\x27"`: how `%s` renders inside the quoted error
messages. -/
def quoted (s : String) : String := "\x27" ++ s ++ "\x27"

/-- The `KeyError` message of `load` and `delete_doc`:
`"No \x27%s\x27 with id \x27%s\x27" % (type, id)`. -/
def errNoWithId (type id : String) : String :=
  "No " ++ quoted type ++ " with id " ++ quoted id

/-- The `KeyError` message of `delete_type` and `list_docs`:
`"No document of type \x27%s\x27 in DB" % type`. -/
def errNoType (type : String) : String :=
  "No document of type " ++ quoted type ++ " in DB"

/-- `save(type, data)` on an in-memory database `db`: returns the (mutated)
`data` object and the database that `_db_write` persists. Follows the source
line by line: ensure a type store, generate `_id`/`_created` when `_id` is
absent, always set `_updated`, store at `db[type][data[_id]]`. -/
def save (env : SaveEnv) (db : Database) (type : String) (data : Doc) :
    Doc × Database :=
  let db1 : Database :=
    if (alookup db type).isSome then db else aset db type []
  let data1 : Doc :=
    if (alookup data "_id").isSome then data
    else
      aset (aset data "_id" (JValue.str (genrate_id env)))
        "_created" (JValue.str (get_timestamp env))
  let data2 : Doc := aset data1 "_updated" (JValue.str (get_timestamp env))
  let id : String := strOfId (alookup data2 "_id")
  let coll : TypeColl := (alookup db1 type).getD []
  (data2, aset db1 type (aset coll id data2))

/-- `load(type, id)`: `db[type][id]`, KeyErrors re-raised with the combined
message. -/
def load (db : Database) (type id : String) : Except String Doc :=
  match alookup db type with
  | none => Except.error (errNoWithId type id)
  | some coll =>
    match alookup coll id with
    | none => Except.error (errNoWithId type id)
    | some d => Except.ok d

/-- `delete_doc(type, id)`: `del db[type][id]` then write; KeyErrors
re-raised with the combined message (and then nothing is written). The
result is the database that gets persisted. -/
def delete_doc (db : Database) (type id : String) : Except String Database :=
  match alookup db type with
  | none => Except.error (errNoWithId type id)
  | some coll =>
    match alookup coll id with
    | none => Except.error (errNoWithId type id)
    | some _ => Except.ok (aset db type (aerase coll id))

/-- `list_docs(type)`: `db[type].keys()`, KeyError re-raised with the
type-only message. -/
def list_docs (db : Database) (type : String) : Except String (List String) :=
  match alookup db type with
  | none => Except.error (errNoType type)
  | some coll => Except.ok (akeys coll)

/-- `delete_type(type)`: `del db[type]` then write; KeyError re-raised with
the type-only message. -/
def delete_type (db : Database) (type : String) : Except String Database :=
  match alookup db type with
  | none => Except.error (errNoType type)
  | some _ => Except.ok (aerase db type)

/-- `delete_all_docs(type)`: snapshot the ids with `list_docs`, then one
`delete_doc` (a full read-modify-write each) per id. -/
def delete_all_docs (db : Database) (type : String) :
    Except String Database :=
  match list_docs db type with
  | Except.error e => Except.error e
  | Except.ok ids => ids.foldlM (fun d i => delete_doc d type i) db

/-- `list_types()`: `db.keys()`. -/
def list_types (db : Database) : List String :=
  akeys db

/-- The state of the backing file as `_db_read` can encounter it. -/
inductive FileState : Type where
  | missing : FileState
  | unparsable : String → FileState
  | parsed : JValue → FileState

/-- `_db_read`: `json.loads` of the file contents; `IOError` (missing file)
and `ValueError` (unparsable contents) are caught and turned into `{}`; a
successfully parsed value is returned as is, whatever its shape. -/
def db_read : FileState → JValue
  | FileState.missing => JValue.obj []
  | FileState.unparsable _ => JValue.obj []
  | FileState.parsed v => v

/-- Whether a parsed JSON value has the structure the store expects: an
object of objects of objects (type name → id → document). -/
def isExpectedStructure : JValue → Bool
  | JValue.obj ts =>
      ts.all (fun p =>
        match p.2 with
        | JValue.obj coll => coll.all (fun q =>
            match q.2 with
            | JValue.obj _ => true
            | _ => false)
        | _ => false)
  | _ => false

/-- Python `db.keys()` on the dynamic value `_db_read` returned: an
`AttributeError` escapes (uncaught) when the value is not a dict. -/
def pyKeys : JValue → Except String (List String)
  | JValue.obj fields => Except.ok (fields.map Prod.fst)
  | _ => Except.error "AttributeError"

/-- `list_types()` run directly against a file state: `_db_read` then
`.keys()`. -/
def list_types_file (fs : FileState) : Except String (List String) :=
  pyKeys (db_read fs)

/-- Decode a parsed JSON value into a `Database` when it has the expected
object-of-objects-of-objects structure (`none` models the dynamic-type
errors, other than `KeyError`, that the store does not catch). -/
def decodeDoc : JValue → Option Doc
  | JValue.obj fields => some fields
  | _ => none

/-- Decode one type collection. -/
def decodeColl : JValue → Option TypeColl
  | JValue.obj fields =>
      fields.foldr
        (fun p acc =>
          match decodeDoc p.2, acc with
          | some d, some rest => some ((p.1, d) :: rest)
          | _, _ => none)
        (some [])
  | _ => none

/-- Decode a whole database. -/
def decodeDb : JValue → Option Database
  | JValue.obj fields =>
      fields.foldr
        (fun p acc =>
          match decodeColl p.2, acc with
          | some c, some rest => some ((p.1, c) :: rest)
          | _, _ => none)
        (some [])
  | _ => none

/-- Encode a database back to the JSON value `json.dumps` writes. -/
def encodeDb (db : Database) : JValue :=
  JValue.obj (db.map (fun p =>
    (p.1, JValue.obj (p.2.map (fun q => (q.1, JValue.obj q.2))))))

/-- `delete_doc` run against the backing file: `_db_read`, the deletion, and
`_db_write` only on success; on `KeyError` the file is returned untouched.
`none` models a file whose parsed contents are not the expected structure,
where the Python code dies with an uncaught dynamic-type error. -/
def delete_doc_file (fs : FileState) (type id : String) :
    Option (FileState × Except String Unit) :=
  match decodeDb (db_read fs) with
  | none => none
  | some db =>
    match delete_doc db type id with
    | Except.error e => some (fs, Except.error e)
    | Except.ok db2 => some (FileState.parsed (encodeDb db2), Except.ok ())

/-! ### Conditions and auxiliary definitions used in the statements -/

/-- The contract on `data` under which `save` is modelled exactly: the
caller either supplies no `_id`, or supplies a string `_id` (JSON object
keys are strings, so any document that ever went through the backing file
satisfies this). -/
def IdOK (data : Doc) : Prop :=
  alookup data "_id" = none ∨ ∃ s, alookup data "_id" = some (JValue.str s)

/-- The not-found condition of `load` and `delete_doc`: the type is absent,
or the type is present and the id is absent from its collection. -/
def NotFoundCond (db : Database) (type id : String) : Prop :=
  alookup db type = none ∨
    ∃ coll, alookup db type = some coll ∧ alookup coll id = none

/-- Every document in the database is stored under its own `_id`. -/
def KeyedById (db : Database) : Prop :=
  ∀ type coll, alookup db type = some coll →
    ∀ id d, alookup coll id = some d → alookup d "_id" = some (JValue.str id)

/-- Databases reachable from the empty store through the public mutating
operations (`load`/`list_docs`/`list_types` do not change state). -/
inductive Reach : Database → Prop where
  | empty : Reach []
  | save_step (env : SaveEnv) (type : String) (data : Doc) (db : Database) :
      Reach db → IdOK data → Reach (save env db type data).2
  | delete_doc_step (type id : String) (db db2 : Database) :
      Reach db → delete_doc db type id = Except.ok db2 → Reach db2
  | delete_all_step (type : String) (db db2 : Database) :
      Reach db → delete_all_docs db type = Except.ok db2 → Reach db2
  | delete_type_step (type : String) (db db2 : Database) :
      Reach db → delete_type db type = Except.ok db2 → Reach db2

/-- A concrete environment for witnesses: digest function constantly 0,
`randint` draw 5, a fixed epoch and a fixed UTC time. -/
def env0 : SaveEnv :=
  ⟨fun _ => 0, 5, "1400000000.000000", 2014, 5, 1, 12, 0, 0⟩

/-- A second concrete environment, one second later than `env0`. -/
def env1 : SaveEnv :=
  ⟨fun _ => 1, 7, "1400000001.000000", 2014, 5, 1, 12, 0, 1⟩

/-- A concrete document without reserved fields, for witnesses. -/
def dataPerson : Doc := [("name", JValue.str "Craig"), ("age", JValue.num 31)]

/-- A database with two documents under one type, for witnesses. -/
def dbTwo : Database :=
  [("person", [("a", [("_id", JValue.str "a")]),
    ("b", [("_id", JValue.str "b")])])]

/-! ### Association-list lemmas -/

@[simp]
theorem alookup_aset_self {α : Type} (xs : List (String × α)) (k : String)
    (v : α) : alookup (aset xs k v) k = some v := by
  induction xs with
  | nil => simp [aset, alookup]
  | cons p xs ih =>
    obtain ⟨k', v'⟩ := p
    by_cases h : k' = k <;> simp [aset, alookup, h, ih]

@[simp]
theorem alookup_aset_ne {α : Type} (xs : List (String × α)) {k j : String}
    (v : α) (h : k ≠ j) : alookup (aset xs k v) j = alookup xs j := by
  induction xs with
  | nil => simp [aset, alookup, h]
  | cons p xs ih =>
    obtain ⟨k', v'⟩ := p
    by_cases h2 : k' = k
    · subst h2
      simp [aset, alookup, h]
    · simp [aset, alookup, h2, ih]

@[simp]
theorem alookup_aerase_self {α : Type} (xs : List (String × α)) (k : String) :
    alookup (aerase xs k) k = none := by
  induction xs with
  | nil => simp [aerase, alookup]
  | cons p xs ih =>
    obtain ⟨k', v'⟩ := p
    by_cases h : k' = k <;> simp [aerase, alookup, h] at ih ⊢ <;>
      simpa [aerase, h] using ih

@[simp]
theorem alookup_aerase_ne {α : Type} (xs : List (String × α)) {k j : String}
    (h : k ≠ j) : alookup (aerase xs k) j = alookup xs j := by
  induction xs with
  | nil => rfl
  | cons p xs ih =>
    obtain ⟨k', v'⟩ := p
    by_cases h2 : k' = k
    · rw [show aerase ((k', v') :: xs) k = aerase xs k from by
        simp [aerase, h2]]
      rw [ih, show alookup ((k', v') :: xs) j = alookup xs j from by
        simp [alookup, h2, h]]
    · rw [show aerase ((k', v') :: xs) k = (k', v') :: aerase xs k from by
        simp [aerase, h2]]
      by_cases h3 : k' = j
      · simp [alookup, h3]
      · simp [alookup, h3, ih]

theorem aset_self_of_alookup {α : Type} {xs : List (String × α)}
    {k : String} {v : α} (h : alookup xs k = some v) : aset xs k v = xs := by
  induction xs with
  | nil => simp [alookup] at h
  | cons p xs ih =>
    obtain ⟨k', v'⟩ := p
    by_cases h2 : k' = k
    · subst h2
      simp [alookup] at h
      simp [aset, h]
    · simp [alookup, h2] at h
      simp [aset, h2, ih h]

theorem length_aset_of_isSome {α : Type} {xs : List (String × α)}
    {k : String} (v : α) (h : (alookup xs k).isSome) :
    (aset xs k v).length = xs.length := by
  induction xs with
  | nil => simp [alookup] at h
  | cons p xs ih =>
    obtain ⟨k', v'⟩ := p
    by_cases h2 : k' = k
    · simp [aset, h2]
    · simp [alookup, h2] at h
      simp [aset, h2, ih h]

theorem mem_akeys_iff_isSome {α : Type} (xs : List (String × α))
    (k : String) : k ∈ akeys xs ↔ (alookup xs k).isSome := by
  induction xs with
  | nil => simp [akeys, alookup]
  | cons p xs ih =>
    obtain ⟨k', v'⟩ := p
    by_cases h : k' = k
    · subst h
      simp [akeys, alookup]
    · have h' : ¬ k = k' := fun e => h e.symm
      have hk : akeys ((k', v') :: xs) = k' :: akeys xs := rfl
      rw [hk, List.mem_cons, ih]
      simp [alookup, h, h']

theorem alookup_isSome_of_mem {α : Type} {xs : List (String × α)}
    {p : String × α} (h : p ∈ xs) : (alookup xs p.1).isSome := by
  induction h with
  | head as => simp [alookup]
  | tail b hmem ih =>
    obtain ⟨k', v'⟩ := b
    by_cases h2 : k' = p.1 <;> simp [alookup, h2, ih]

/-! ### Non-emptiness of generated ids and timestamps -/

theorem hexdigest40_length (h : Nat) : (hexdigest40 h).length = 40 := by
  simp [hexdigest40, String.length]

theorem genrate_id_length (env : SaveEnv) : (genrate_id env).length = 40 :=
  hexdigest40_length _

theorem genrate_id_ne_empty (env : SaveEnv) : genrate_id env ≠ "" := by
  intro h
  have h40 := genrate_id_length env
  rw [h] at h40
  simp [String.length] at h40

theorem get_timestamp_length_pos (env : SaveEnv) :
    0 < (get_timestamp env).length := by
  have h1 : ("-" : String).length = 1 := rfl
  simp only [get_timestamp, String.length_append, h1]
  omega

theorem get_timestamp_ne_empty (env : SaveEnv) : get_timestamp env ≠ "" := by
  intro h
  have hp := get_timestamp_length_pos env
  rw [h] at hp
  simp [String.length] at hp

/-! ### Helper lemmas about `save` (shared between the claim theorems) -/

theorem save_fresh_id (env : SaveEnv) (db : Database) (type : String)
    (data : Doc) (h : alookup data "_id" = none) :
    alookup (save env db type data).1 "_id" =
      some (JValue.str (genrate_id env)) := by
  simp [save, h]

theorem save_fresh_created (env : SaveEnv) (db : Database) (type : String)
    (data : Doc) (h : alookup data "_id" = none) :
    alookup (save env db type data).1 "_created" =
      some (JValue.str (get_timestamp env)) := by
  simp [save, h]

theorem save_given_id (env : SaveEnv) (db : Database) (type : String)
    (data : Doc) (v : JValue) (h : alookup data "_id" = some v) :
    alookup (save env db type data).1 "_id" = some v := by
  simp [save, h]

theorem save_given_other (env : SaveEnv) (db : Database) (type : String)
    (data : Doc) (v : JValue) (h : alookup data "_id" = some v)
    (k : String) (hk : k ≠ "_updated") :
    alookup (save env db type data).1 k = alookup data k := by
  simp [save, h, Ne.symm hk]

theorem save_updated (env : SaveEnv) (db : Database) (type : String)
    (data : Doc) (hid : IdOK data) :
    alookup (save env db type data).1 "_updated" =
      some (JValue.str (get_timestamp env)) := by
  rcases hid with h | ⟨s, h⟩ <;> simp [save, h]

theorem save_id_str (env : SaveEnv) (db : Database) (type : String)
    (data : Doc) (hid : IdOK data) :
    alookup (save env db type data).1 "_id" =
      some (JValue.str (strOfId (alookup (save env db type data).1 "_id"))) := by
  rcases hid with h | ⟨s, h⟩ <;> simp [save, h, strOfId]

theorem save_stored (env : SaveEnv) (db : Database) (type : String)
    (data : Doc) :
    alookup (save env db type data).2 type =
      some (aset ((alookup db type).getD [])
        (strOfId (alookup (save env db type data).1 "_id"))
        (save env db type data).1) := by
  rcases h : alookup db type with _ | c <;> simp [save, h]

theorem save_frame_types (env : SaveEnv) (db : Database) (type : String)
    (data : Doc) (t : String) (h : t ≠ type) :
    alookup (save env db type data).2 t = alookup db t := by
  rcases h2 : alookup db type with _ | c <;> simp [save, h2, Ne.symm h]

theorem save_then_load (env : SaveEnv) (db : Database) (type : String)
    (data : Doc) (hid : IdOK data) :
    load (save env db type data).2 type
        (strOfId (alookup (save env db type data).1 "_id")) =
      Except.ok (save env db type data).1 := by
  rcases hid with h | ⟨s, h⟩ <;> simp [save, load, h, strOfId]

/-- C2: for every type string and data mapping (with no `_id` or a string
`_id`), after `save`, loading the returned document's `_id` under the same
type yields a document equal, field for field, to the value `save`
returned. -/
theorem save_load_roundtrip (env : SaveEnv) (db : Database) (type : String)
    (data : Doc) (hid : IdOK data) :
    load (save env db type data).2 type
        (strOfId (alookup (save env db type data).1 "_id")) =
      Except.ok (save env db type data).1 :=
  save_then_load env db type data hid

/-- Witness for C2 at a concrete environment, empty store and document. -/
theorem save_load_roundtrip_witness :
    load (save env0 [] "person" dataPerson).2 "person"
        (strOfId (alookup (save env0 [] "person" dataPerson).1 "_id")) =
      Except.ok (save env0 [] "person" dataPerson).1 :=
  save_load_roundtrip env0 [] "person" dataPerson (Or.inl rfl)

/-- C4: for every type string and data mapping without an `_id` key, the
document `save` returns carries non-empty `_id`, `_created` and `_updated`
fields, and `_created` equals `_updated`. -/
theorem save_fresh_reserved_fields (env : SaveEnv) (db : Database)
    (type : String) (data : Doc) (h : alookup data "_id" = none) :
    alookup (save env db type data).1 "_id" =
        some (JValue.str (genrate_id env)) ∧
      genrate_id env ≠ "" ∧
      alookup (save env db type data).1 "_created" =
        some (JValue.str (get_timestamp env)) ∧
      alookup (save env db type data).1 "_updated" =
        some (JValue.str (get_timestamp env)) ∧
      get_timestamp env ≠ "" := by
  refine ⟨?_, genrate_id_ne_empty env, ?_, ?_, get_timestamp_ne_empty env⟩ <;>
    simp [save, h]

/-- Witness for C4 at a concrete environment, empty store and document. -/
theorem save_fresh_reserved_fields_witness :
    alookup (save env0 [] "person" dataPerson).1 "_id" =
        some (JValue.str (genrate_id env0)) ∧
      genrate_id env0 ≠ "" ∧
      alookup (save env0 [] "person" dataPerson).1 "_created" =
        some (JValue.str (get_timestamp env0)) ∧
      alookup (save env0 [] "person" dataPerson).1 "_updated" =
        some (JValue.str (get_timestamp env0)) ∧
      get_timestamp env0 ≠ "" :=
  save_fresh_reserved_fields env0 [] "person" dataPerson rfl

/-- C1 counterexample: the claim says `save` always "returns the stored
document including the three reserved fields", but saving a document that
supplies an `_id` while lacking `_created` stores and returns a document
with no `_created` field (the creation branch is skipped entirely). The
second conjunct checks that the `_created`-less document is exactly what got
stored. -/
theorem save_created_missing_cex :
    alookup (save env0 [] "person" [("_id", JValue.str "x")]).1 "_created" =
        none ∧
      load (save env0 [] "person" [("_id", JValue.str "x")]).2 "person" "x" =
        Except.ok (save env0 [] "person" [("_id", JValue.str "x")]).1 := by
  constructor <;> rfl

/-- C1 amended: `save(type, data)` ensures a collection for `type`; when
`data` lacks `_id` it assigns a fresh generated id and sets `_created` to
the call's timestamp; it always sets `_updated` to the call's timestamp;
it stores the document at `db[type][data[_id]]`, overwriting any prior
document under that id and leaving every other type and document unchanged;
the database so obtained is what gets written back; and it returns the
stored document, which always carries `_id` and `_updated`, but carries
`_created` only when freshly created (or when already present in `data`). -/
theorem save_behavior (env : SaveEnv) (db : Database) (type : String)
    (data : Doc) (hid : IdOK data) :
    (alookup data "_id" = none →
        alookup (save env db type data).1 "_id" =
            some (JValue.str (genrate_id env)) ∧
          alookup (save env db type data).1 "_created" =
            some (JValue.str (get_timestamp env))) ∧
      (∀ s, alookup data "_id" = some (JValue.str s) →
        alookup (save env db type data).1 "_id" =
            some (JValue.str s) ∧
          alookup (save env db type data).1 "_created" =
            alookup data "_created") ∧
      alookup (save env db type data).1 "_updated" =
        some (JValue.str (get_timestamp env)) ∧
      (∀ k, k ≠ "_id" → k ≠ "_created" → k ≠ "_updated" →
        alookup (save env db type data).1 k = alookup data k) ∧
      (∃ coll2, alookup (save env db type data).2 type = some coll2 ∧
        alookup coll2 (strOfId (alookup (save env db type data).1 "_id")) =
            some (save env db type data).1 ∧
          ∀ i, i ≠ strOfId (alookup (save env db type data).1 "_id") →
            alookup coll2 i = alookup ((alookup db type).getD []) i) ∧
      ∀ t, t ≠ type → alookup (save env db type data).2 t = alookup db t := by
  refine ⟨?_, ?_, save_updated env db type data hid, ?_, ?_, ?_⟩
  · intro h
    exact ⟨save_fresh_id env db type data h, save_fresh_created env db type data h⟩
  · intro s h
    exact ⟨save_given_id env db type data _ h,
      save_given_other env db type data _ h "_created" (by decide)⟩
  · intro k hk1 hk2 hk3
    rcases hid with h | ⟨s, h⟩
    · simp [save, h, Ne.symm hk1, Ne.symm hk2, Ne.symm hk3]
    · exact save_given_other env db type data _ h k hk3
  · refine ⟨aset ((alookup db type).getD [])
        (strOfId (alookup (save env db type data).1 "_id"))
        (save env db type data).1,
      save_stored env db type data, alookup_aset_self _ _ _, ?_⟩
    intro i hi
    exact alookup_aset_ne _ _ (Ne.symm hi)
  · intro t ht
    exact save_frame_types env db type data t ht

/-- Witness for the amended C1 at a concrete environment, empty store and
document. -/
theorem save_behavior_witness :
    (alookup dataPerson "_id" = none →
        alookup (save env0 [] "person" dataPerson).1 "_id" =
            some (JValue.str (genrate_id env0)) ∧
          alookup (save env0 [] "person" dataPerson).1 "_created" =
            some (JValue.str (get_timestamp env0))) ∧
      (∀ s, alookup dataPerson "_id" = some (JValue.str s) →
        alookup (save env0 [] "person" dataPerson).1 "_id" =
            some (JValue.str s) ∧
          alookup (save env0 [] "person" dataPerson).1 "_created" =
            alookup dataPerson "_created") ∧
      alookup (save env0 [] "person" dataPerson).1 "_updated" =
        some (JValue.str (get_timestamp env0)) ∧
      (∀ k, k ≠ "_id" → k ≠ "_created" → k ≠ "_updated" →
        alookup (save env0 [] "person" dataPerson).1 k =
          alookup dataPerson k) ∧
      (∃ coll2, alookup (save env0 [] "person" dataPerson).2 "person" =
          some coll2 ∧
        alookup coll2
            (strOfId (alookup (save env0 [] "person" dataPerson).1 "_id")) =
            some (save env0 [] "person" dataPerson).1 ∧
          ∀ i, i ≠ strOfId (alookup (save env0 [] "person" dataPerson).1 "_id") →
            alookup coll2 i = alookup ((alookup ([] : Database) "person").getD []) i) ∧
      ∀ t, t ≠ "person" →
        alookup (save env0 [] "person" dataPerson).2 t =
          alookup ([] : Database) t :=
  save_behavior env0 [] "person" dataPerson (Or.inl rfl)

/-- C5: re-saving a previously saved document under the same type, with one
non-reserved field modified, keeps the stored `_id` and `_created`, changes
`_updated` (the clock having moved between the calls), reflects the modified
field in a subsequent `load` of the returned document, and leaves the type
collection's document count unchanged. -/
theorem resave_updates_in_place (ea eb : SaveEnv) (db : Database)
    (type k : String) (v : JValue) (data : Doc)
    (r1 : Doc) (db1 : Database) (r2 : Doc) (db2 : Database)
    (h0 : alookup data "_id" = none)
    (hk1 : k ≠ "_id") (hk2 : k ≠ "_created") (hk3 : k ≠ "_updated")
    (hts : get_timestamp eb ≠ get_timestamp ea)
    (hs1 : save ea db type data = (r1, db1))
    (hs2 : save eb db1 type (aset r1 k v) = (r2, db2)) :
    alookup r2 "_id" = alookup r1 "_id" ∧
      alookup r2 "_created" = alookup r1 "_created" ∧
      alookup r2 "_updated" ≠ alookup r1 "_updated" ∧
      alookup r2 k = some v ∧
      load db2 type (strOfId (alookup r2 "_id")) = Except.ok r2 ∧
      ((alookup db2 type).getD []).length =
        ((alookup db1 type).getD []).length := by
  have hr1 : r1 = (save ea db type data).1 := by rw [hs1]
  have hdb1 : db1 = (save ea db type data).2 := by rw [hs1]
  have hr2 : r2 = (save eb db1 type (aset r1 k v)).1 := by rw [hs2]
  have hdb2 : db2 = (save eb db1 type (aset r1 k v)).2 := by rw [hs2]
  have hid1 : alookup r1 "_id" = some (JValue.str (genrate_id ea)) := by
    rw [hr1]; exact save_fresh_id ea db type data h0
  have hd2id : alookup (aset r1 k v) "_id" =
      some (JValue.str (genrate_id ea)) := by
    rw [alookup_aset_ne _ _ hk1]; exact hid1
  have hidok2 : IdOK (aset r1 k v) := Or.inr ⟨genrate_id ea, hd2id⟩
  have hid2 : alookup r2 "_id" = some (JValue.str (genrate_id ea)) := by
    rw [hr2]; rw [save_given_id eb db1 type (aset r1 k v) _ hd2id]
  have hu1 : alookup r1 "_updated" = some (JValue.str (get_timestamp ea)) := by
    rw [hr1]; exact save_updated ea db type data (Or.inl h0)
  have hu2 : alookup r2 "_updated" = some (JValue.str (get_timestamp eb)) := by
    rw [hr2]; exact save_updated eb db1 type (aset r1 k v) hidok2
  refine ⟨?_, ?_, ?_, ?_, ?_, ?_⟩
  · rw [hid2, hid1]
  · rw [hr2,
      save_given_other eb db1 type (aset r1 k v) _ hd2id "_created" (by decide),
      alookup_aset_ne _ _ hk2]
  · rw [hu2, hu1]
    intro he
    injection he with h1
    injection h1 with h2
    exact hts h2
  · rw [hr2, save_given_other eb db1 type (aset r1 k v) _ hd2id k hk3,
      alookup_aset_self]
  · rw [hr2, hdb2]
    exact save_then_load eb db1 type (aset r1 k v) hidok2
  · have hg1 : strOfId (alookup r1 "_id") = genrate_id ea := by
      rw [hid1]; rfl
    have hg2 : strOfId (alookup r2 "_id") = genrate_id ea := by
      rw [hid2]; rfl
    have hst1 : alookup db1 type =
        some (aset ((alookup db type).getD []) (genrate_id ea) r1) := by
      rw [hdb1]
      have := save_stored ea db type data
      rw [← hr1, hg1] at this
      exact this
    have hst2 : alookup db2 type =
        some (aset (aset ((alookup db type).getD []) (genrate_id ea) r1)
          (genrate_id ea) r2) := by
      rw [hdb2]
      have := save_stored eb db1 type (aset r1 k v)
      rw [← hr2, hg2, hst1] at this
      simpa using this
    rw [hst1, hst2]
    simp only [Option.getD_some]
    exact length_aset_of_isSome _ (by rw [alookup_aset_self]; rfl)

/-- Witness for C5: a concrete document saved on an empty store, then
re-saved one second later with a `location` field added. -/
theorem resave_updates_in_place_witness :
    alookup (save env1 (save env0 [] "person" dataPerson).2 "person"
          (aset (save env0 [] "person" dataPerson).1 "location"
            (JValue.str "Leicester"))).1 "_id" =
        alookup (save env0 [] "person" dataPerson).1 "_id" ∧
      alookup (save env1 (save env0 [] "person" dataPerson).2 "person"
          (aset (save env0 [] "person" dataPerson).1 "location"
            (JValue.str "Leicester"))).1 "_created" =
        alookup (save env0 [] "person" dataPerson).1 "_created" ∧
      alookup (save env1 (save env0 [] "person" dataPerson).2 "person"
          (aset (save env0 [] "person" dataPerson).1 "location"
            (JValue.str "Leicester"))).1 "_updated" ≠
        alookup (save env0 [] "person" dataPerson).1 "_updated" ∧
      alookup (save env1 (save env0 [] "person" dataPerson).2 "person"
          (aset (save env0 [] "person" dataPerson).1 "location"
            (JValue.str "Leicester"))).1 "location" =
        some (JValue.str "Leicester") ∧
      load (save env1 (save env0 [] "person" dataPerson).2 "person"
          (aset (save env0 [] "person" dataPerson).1 "location"
            (JValue.str "Leicester"))).2 "person"
          (strOfId (alookup (save env1
            (save env0 [] "person" dataPerson).2 "person"
            (aset (save env0 [] "person" dataPerson).1 "location"
              (JValue.str "Leicester"))).1 "_id")) =
        Except.ok (save env1 (save env0 [] "person" dataPerson).2 "person"
          (aset (save env0 [] "person" dataPerson).1 "location"
            (JValue.str "Leicester"))).1 ∧
      ((alookup (save env1 (save env0 [] "person" dataPerson).2 "person"
            (aset (save env0 [] "person" dataPerson).1 "location"
              (JValue.str "Leicester"))).2 "person").getD []).length =
        ((alookup (save env0 [] "person" dataPerson).2 "person").getD
          []).length :=
  resave_updates_in_place env0 env1 [] "person" "location"
    (JValue.str "Leicester") dataPerson
    (save env0 [] "person" dataPerson).1 (save env0 [] "person" dataPerson).2
    (save env1 (save env0 [] "person" dataPerson).2 "person"
      (aset (save env0 [] "person" dataPerson).1 "location"
        (JValue.str "Leicester"))).1
    (save env1 (save env0 [] "person" dataPerson).2 "person"
      (aset (save env0 [] "person" dataPerson).1 "location"
        (JValue.str "Leicester"))).2
    rfl (by decide) (by decide) (by decide) (by decide) rfl rfl

/-- C6: `load` and `delete_doc` fail exactly when the type is absent or the
id is absent from the type's collection; the (only) error message carries
both the type and the id as substrings. -/
theorem load_delete_doc_notfound (db : Database) (type id : String) :
    ((∃ e, load db type id = Except.error e) ↔ NotFoundCond db type id) ∧
      ((∃ e, delete_doc db type id = Except.error e) ↔
        NotFoundCond db type id) ∧
      (∀ e, load db type id = Except.error e → e = errNoWithId type id) ∧
      (∀ e, delete_doc db type id = Except.error e →
        e = errNoWithId type id) ∧
      type.data <:+: (errNoWithId type id).data ∧
      id.data <:+: (errNoWithId type id).data := by
  refine ⟨?_, ?_, ?_, ?_, ?_, ?_⟩
  · unfold load NotFoundCond
    rcases h1 : alookup db type with _ | coll
    · simp
    · rcases h2 : alookup coll id with _ | d <;> simp [h2]
  · unfold delete_doc NotFoundCond
    rcases h1 : alookup db type with _ | coll
    · simp
    · rcases h2 : alookup coll id with _ | d <;> simp [h2]
  · intro e he
    unfold load at he
    split at he
    · injection he with h
      exact h.symm
    · split at he
      · injection he with h
        exact h.symm
      · exact absurd he (by simp)
  · intro e he
    unfold delete_doc at he
    split at he
    · injection he with h
      exact h.symm
    · split at he
      · injection he with h
        exact h.symm
      · exact absurd he (by simp)
  · refine ⟨"No ".data ++ "\x27".data,
      "\x27".data ++ (" with id ".data ++ ("\x27".data ++
        (id.data ++ "\x27".data))), ?_⟩
    simp [errNoWithId, quoted, String.data_append, List.append_assoc]
  · refine ⟨"No ".data ++ ("\x27".data ++ (type.data ++ ("\x27".data ++
      (" with id ".data ++ "\x27".data)))), "\x27".data, ?_⟩
    simp [errNoWithId, quoted, String.data_append, List.append_assoc]

/-- Witness for C6, instantiated at an empty store. -/
theorem load_delete_doc_notfound_witness :
    ((∃ e, load [] "person" "x" = Except.error e) ↔
        NotFoundCond [] "person" "x") ∧
      ((∃ e, delete_doc [] "person" "x" = Except.error e) ↔
        NotFoundCond [] "person" "x") ∧
      (∀ e, load [] "person" "x" = Except.error e →
        e = errNoWithId "person" "x") ∧
      (∀ e, delete_doc [] "person" "x" = Except.error e →
        e = errNoWithId "person" "x") ∧
      ("person" : String).data <:+: (errNoWithId "person" "x").data ∧
      ("x" : String).data <:+: (errNoWithId "person" "x").data :=
  load_delete_doc_notfound [] "person" "x"

/-- C7: whenever `delete_doc`, run against the backing file, fails with the
not-found `KeyError`, the file is left exactly as it was (`_db_write` is
never reached). -/
theorem delete_doc_file_no_write (fs : FileState) (type id : String)
    (fs2 : FileState) (e : String)
    (h : delete_doc_file fs type id = some (fs2, Except.error e)) :
    fs2 = fs := by
  unfold delete_doc_file at h
  split at h
  · exact absurd h (by simp)
  · split at h
    · injection h with h3
      injection h3 with h4 h5
      exact h4.symm
    · injection h with h3
      injection h3 with h4 h5
      exact absurd h5 (by simp)

/-- Witness for C7: deleting from a missing backing file fails with
`KeyError` and leaves the file state untouched. -/
theorem delete_doc_file_no_write_witness : FileState.missing = FileState.missing :=
  delete_doc_file_no_write FileState.missing "person" "x" FileState.missing
    (errNoWithId "person" "x") rfl

/-- C3 counterexample: a backing file whose contents parse as JSON but are
not the expected mapping-of-mappings (here: the JSON array `[]`) is NOT
replaced by an empty database — `_db_read` returns the array as is, and a
public operation (`list_types`) then dies with an uncaught `AttributeError`
instead of behaving as on a fresh empty store. -/
theorem db_read_wrong_structure_cex :
    isExpectedStructure (JValue.arr []) = false ∧
      db_read (FileState.parsed (JValue.arr [])) ≠ JValue.obj [] ∧
      list_types_file (FileState.parsed (JValue.arr [])) =
        Except.error "AttributeError" ∧
      list_types_file FileState.missing = Except.ok [] := by
  refine ⟨rfl, ?_, rfl, rfl⟩
  intro h
  exact JValue.noConfusion h

/-- C3 amended: `_db_read` substitutes an empty database exactly for a
missing/unreadable file (IOError) and for contents that fail to parse as
JSON (ValueError) — on those states every operation behaves as on a fresh
empty store; contents that parse as JSON but are not the expected structure
are returned as parsed, unrecovered. -/
theorem db_read_tolerant (s : String) (v : JValue) :
    db_read FileState.missing = JValue.obj [] ∧
      db_read (FileState.unparsable s) = JValue.obj [] ∧
      db_read (FileState.unparsable s) = db_read FileState.missing ∧
      decodeDb (db_read FileState.missing) = some ([] : Database) ∧
      decodeDb (db_read (FileState.unparsable s)) = some ([] : Database) ∧
      db_read (FileState.parsed v) = v :=
  ⟨rfl, rfl, rfl, rfl, rfl, rfl⟩

/-! ### Helper lemmas for the delete operations -/

theorem except_ok_bind {ε α β : Type} (a : α) (f : α → Except ε β) :
    (Except.ok a >>= f) = f a := rfl

theorem except_error_bind {ε α β : Type} (e : ε) (f : α → Except ε β) :
    ((Except.error e : Except ε α) >>= f) = Except.error e := rfl

theorem aerase_cons_self {α : Type} (k : String) (v : α)
    (xs : List (String × α)) : aerase ((k, v) :: xs) k = aerase xs k := by
  simp [aerase]

theorem aerase_of_not_mem {α : Type} {xs : List (String × α)} {k : String}
    (h : k ∉ akeys xs) : aerase xs k = xs := by
  induction xs with
  | nil => rfl
  | cons p xs ih =>
    obtain ⟨k', v'⟩ := p
    rw [show akeys ((k', v') :: xs) = k' :: akeys xs from rfl] at h
    simp only [List.mem_cons, not_or] at h
    have h1 : ¬ k' = k := fun e => h.1 e.symm
    have hcons : aerase ((k', v') :: xs) k = (k', v') :: aerase xs k := by
      simp [aerase, List.filter_cons, h1]
    rw [hcons, ih h.2]

theorem aset_aset {α : Type} (xs : List (String × α)) (k : String)
    (v w : α) : aset (aset xs k v) k w = aset xs k w := by
  induction xs with
  | nil => simp [aset]
  | cons p xs ih =>
    obtain ⟨k', v'⟩ := p
    by_cases h : k' = k <;> simp [aset, h, ih]

theorem fold_delete_eq (type : String) (ids : List String) :
    ∀ (db : Database) (coll : TypeColl),
      alookup db type = some coll → akeys coll = ids → ids.Nodup →
      ids.foldlM (fun d i => delete_doc d type i) db =
        Except.ok (aset db type []) := by
  induction ids with
  | nil =>
    intro db coll h1 h2 _
    have hc : coll = [] := by
      cases coll with
      | nil => rfl
      | cons p r => exact absurd h2 (by simp [akeys])
    subst hc
    rw [aset_self_of_alookup h1]
    rfl
  | cons i ids ih =>
    intro db coll h1 h2 hnd
    cases coll with
    | nil => exact absurd h2 (by simp [akeys])
    | cons p coll2 =>
      obtain ⟨i0, d0⟩ := p
      rw [show akeys ((i0, d0) :: coll2) = i0 :: akeys coll2 from rfl] at h2
      injection h2 with ha hb
      subst ha
      have hnotin : i0 ∉ akeys coll2 := by
        rw [hb]
        exact (List.nodup_cons.mp hnd).1
      have herase : aerase ((i0, d0) :: coll2) i0 = coll2 :=
        (aerase_cons_self i0 d0 coll2).trans (aerase_of_not_mem hnotin)
      have hdel : delete_doc db type i0 = Except.ok (aset db type coll2) := by
        simp [delete_doc, h1, alookup, herase]
      have hnext := ih (aset db type coll2) coll2 (alookup_aset_self _ _ _)
        hb (List.nodup_cons.mp hnd).2
      rw [List.foldlM_cons, hdel, except_ok_bind, hnext, aset_aset]

theorem delete_all_docs_ok {db : Database} {type : String} {coll : TypeColl}
    (h : alookup db type = some coll) (hnd : (akeys coll).Nodup) :
    delete_all_docs db type = Except.ok (aset db type []) := by
  have hl : list_docs db type = Except.ok (akeys coll) := by
    simp [list_docs, h]
  simp only [delete_all_docs, hl]
  exact fold_delete_eq type (akeys coll) db coll h rfl hnd

/-- C8: `delete_all_docs(type)` fails with the `list_docs`-style NotFound
error when the type is absent; otherwise (Python dict keys being unique) it
succeeds, emptying the type's collection so that every id previously
visible via `list_docs` subsequently fails `load` with NotFound. -/
theorem delete_all_docs_spec (db : Database) (type : String) :
    (alookup db type = none →
        delete_all_docs db type = Except.error (errNoType type)) ∧
      ∀ coll, alookup db type = some coll → (akeys coll).Nodup →
        delete_all_docs db type = Except.ok (aset db type []) ∧
          ∀ id ∈ akeys coll,
            load (aset db type []) type id =
              Except.error (errNoWithId type id) := by
  constructor
  · intro h
    simp [delete_all_docs, list_docs, h]
  · intro coll h hnd
    refine ⟨delete_all_docs_ok h hnd, ?_⟩
    intro id _
    simp [load, alookup_aset_self, alookup]

/-- Witness for C8 at a concrete two-document store (both the absent-type
branch and the present-type branch are exercised by instantiation). -/
theorem delete_all_docs_spec_witness :
    (alookup dbTwo "animal" = none →
        delete_all_docs dbTwo "animal" = Except.error (errNoType "animal")) ∧
      ∀ coll, alookup dbTwo "animal" = some coll → (akeys coll).Nodup →
        delete_all_docs dbTwo "animal" = Except.ok (aset dbTwo "animal" []) ∧
          ∀ id ∈ akeys coll,
            load (aset dbTwo "animal" []) "animal" id =
              Except.error (errNoWithId "animal" id) :=
  delete_all_docs_spec dbTwo "animal"

/-- C10: after a successful `delete_all_docs(type)` the type itself is still
present: it still appears in `list_types()`, and `list_docs(type)` returns
an empty collection instead of raising NotFound (unlike `delete_type`). -/
theorem delete_all_docs_keeps_type (db : Database) (type : String)
    (coll : TypeColl) (h : alookup db type = some coll)
    (hnd : (akeys coll).Nodup) :
    delete_all_docs db type = Except.ok (aset db type []) ∧
      type ∈ list_types (aset db type []) ∧
      list_docs (aset db type []) type = Except.ok [] := by
  refine ⟨delete_all_docs_ok h hnd, ?_, ?_⟩
  · exact (mem_akeys_iff_isSome _ _).mpr (by rw [alookup_aset_self]; rfl)
  · simp [list_docs, alookup_aset_self, akeys]

/-- Witness for C10 at the concrete two-document store. -/
theorem delete_all_docs_keeps_type_witness :
    delete_all_docs dbTwo "person" = Except.ok (aset dbTwo "person" []) ∧
      "person" ∈ list_types (aset dbTwo "person" []) ∧
      list_docs (aset dbTwo "person" []) "person" = Except.ok [] :=
  delete_all_docs_keeps_type dbTwo "person"
    [("a", [("_id", JValue.str "a")]), ("b", [("_id", JValue.str "b")])]
    rfl (by decide)

/-! ### The keyed-by-own-id invariant (C9) -/

theorem delete_doc_ok_inv {db db2 : Database} {type id : String}
    (h : delete_doc db type id = Except.ok db2) :
    ∃ coll, alookup db type = some coll ∧
      db2 = aset db type (aerase coll id) := by
  rcases h1 : alookup db type with _ | coll
  · simp [delete_doc, h1] at h
  · rcases h2 : alookup coll id with _ | d
    · simp [delete_doc, h1, h2] at h
    · simp [delete_doc, h1, h2] at h
      exact ⟨coll, rfl, h.symm⟩

theorem delete_type_ok_inv {db db2 : Database} {type : String}
    (h : delete_type db type = Except.ok db2) : db2 = aerase db type := by
  rcases h1 : alookup db type with _ | c
  · simp [delete_type, h1] at h
  · simp [delete_type, h1] at h
    exact h.symm

theorem save_preserves_keyed {db : Database} (env : SaveEnv) (type : String)
    {data : Doc} (hid : IdOK data) (hk : KeyedById db) :
    KeyedById (save env db type data).2 := by
  intro t c hc i d hd
  by_cases ht : t = type
  · subst ht
    rw [save_stored env db t data] at hc
    injection hc with hc2
    subst hc2
    by_cases hi : i = strOfId (alookup (save env db t data).1 "_id")
    · subst hi
      rw [alookup_aset_self] at hd
      injection hd with hd2
      subst hd2
      exact save_id_str env db t data hid
    · rw [alookup_aset_ne _ _ (fun e => hi e.symm)] at hd
      rcases h0 : alookup db t with _ | c0
      · rw [h0] at hd
        simp [alookup] at hd
      · rw [h0] at hd
        exact hk t c0 h0 i d hd
  · rw [save_frame_types env db type data t ht] at hc
    exact hk t c hc i d hd

theorem delete_doc_preserves_keyed {db db2 : Database} {type id : String}
    (h : delete_doc db type id = Except.ok db2) (hk : KeyedById db) :
    KeyedById db2 := by
  obtain ⟨coll, hcoll, rfl⟩ := delete_doc_ok_inv h
  intro t c hc i d hd
  by_cases ht : t = type
  · subst ht
    rw [alookup_aset_self] at hc
    injection hc with hc2
    subst hc2
    by_cases hi : i = id
    · subst hi
      rw [alookup_aerase_self] at hd
      exact absurd hd (by simp)
    · rw [alookup_aerase_ne _ (fun e => hi e.symm)] at hd
      exact hk t coll hcoll i d hd
  · rw [alookup_aset_ne _ _ (fun e => ht e.symm)] at hc
    exact hk t c hc i d hd

theorem delete_type_preserves_keyed {db db2 : Database} {type : String}
    (h : delete_type db type = Except.ok db2) (hk : KeyedById db) :
    KeyedById db2 := by
  obtain rfl := delete_type_ok_inv h
  intro t c hc i d hd
  by_cases ht : t = type
  · subst ht
    rw [alookup_aerase_self] at hc
    exact absurd hc (by simp)
  · rw [alookup_aerase_ne _ (fun e => ht e.symm)] at hc
    exact hk t c hc i d hd

theorem fold_delete_preserves_keyed (type : String) (ids : List String) :
    ∀ db db2 : Database, KeyedById db →
      ids.foldlM (fun d i => delete_doc d type i) db = Except.ok db2 →
      KeyedById db2 := by
  induction ids with
  | nil =>
    intro db db2 hk h
    have h2 : (Except.ok db : Except String Database) = Except.ok db2 := h
    injection h2 with h3
    rwa [← h3]
  | cons i ids ih =>
    intro db db2 hk h
    rw [List.foldlM_cons] at h
    rcases h1 : delete_doc db type i with e | dbm <;> rw [h1] at h
    · rw [except_error_bind] at h
      exact absurd h (by simp)
    · rw [except_ok_bind] at h
      exact ih dbm db2 (delete_doc_preserves_keyed h1 hk) h

theorem delete_all_preserves_keyed {db db2 : Database} {type : String}
    (h : delete_all_docs db type = Except.ok db2) (hk : KeyedById db) :
    KeyedById db2 := by
  rcases h1 : list_docs db type with e | ids
  · simp [delete_all_docs, h1] at h
  · simp only [delete_all_docs, h1] at h
    exact fold_delete_preserves_keyed type ids db db2 hk h

/-- C9: every database reachable from the empty store through the public
mutating operations stores each document under its own `_id`: whenever
`db[type][k]` is a document `d`, `d[_id]` is the string `k`. -/
theorem reach_keyed_by_id (db : Database) (h : Reach db) : KeyedById db := by
  induction h with
  | empty =>
    intro t c hc i d hd
    exact absurd hc (by simp [alookup])
  | save_step env type data db hr hid ih =>
    exact save_preserves_keyed env type hid ih
  | delete_doc_step type id db db2 hr hdel ih =>
    exact delete_doc_preserves_keyed hdel ih
  | delete_all_step type db db2 hr hdel ih =>
    exact delete_all_preserves_keyed hdel ih
  | delete_type_step type db db2 hr hdel ih =>
    exact delete_type_preserves_keyed hdel ih

/-- Witness for C9: the invariant at the concrete database obtained by one
`save` on the empty store. -/
theorem reach_keyed_by_id_witness :
    KeyedById (save env0 [] "person" dataPerson).2 :=
  reach_keyed_by_id _
    (Reach.save_step env0 "person" dataPerson [] Reach.empty (Or.inl rfl))

end JsonDatastore
